import Mathlib

/-!
# Verification of the blogi blog-generation controller and researcher pipeline

Shallow embedding of `src/core/agent.py`, `src/generators/researcher.py`,
`src/core/config.py` and `src/services/process_image_service.py`.

External collaborators (the Anthropic completion client, the Brave search
client, the webpage fetcher, the Midjourney/OpenAI image services, the
filesystem) are modelled as an explicit environment of response functions:
`none` / `Except.error` stand for a Python exception or a `None` return at
the corresponding boundary, exactly where the source distinguishes them.

Python strings are modelled as Lean `String`; the handful of Python string
methods the source uses (`replace`, `split`, `strip`, `join`, `format`) are
re-implemented below by structural recursion on the character list so that
concrete runs evaluate inside the kernel.
-/

namespace Blogi

/-- Python `str.replace` on character lists, non-overlapping and left to
right; `fuel` is an upper bound on the scan length (the callers pass the
list length, which always suffices). -/
def replaceAux (pat sub : List Char) : Nat → List Char → List Char
  | _, [] => []
  | 0, s => s
  | fuel + 1, x :: xs =>
    if pat.isPrefixOf (x :: xs) then
      sub ++ replaceAux pat sub fuel ((x :: xs).drop pat.length)
    else
      x :: replaceAux pat sub fuel xs

/-- Python `s.replace(pat, sub)`. The embedded code never calls it with an
empty pattern; that case is mapped to the identity. -/
def pyReplace (s pat sub : String) : String :=
  if pat.data.isEmpty then s
  else ⟨replaceAux pat.data sub.data s.data.length s.data⟩

/-- One placeholder substitution of Python `str.format`: replaces every
occurrence of the brace-delimited key by the value. -/
def pyFormat (tmpl key val : String) : String :=
  pyReplace tmpl ("\x7b" ++ key ++ "\x7d") val

/-- Python `str.split` with a one-character separator. -/
def splitOnChar (c : Char) : List Char → List (List Char)
  | [] => [[]]
  | x :: xs =>
    let r := splitOnChar c xs
    if x = c then [] :: r
    else
      match r with
      | y :: ys => (x :: y) :: ys
      | [] => [[x]]

/-- Python `s.split(c)` for a one-character separator `c`. -/
def pySplit (s : String) (c : Char) : List String :=
  (splitOnChar c s.data).map fun l => ⟨l⟩

/-- The whitespace characters Python `str.strip` removes (the ones that can
occur in the modelled data). -/
def pyIsSpace (c : Char) : Bool :=
  c = ' ' || c = '\t' || c = '\n' || c = '\r'

/-- Python `s.strip()`. -/
def pyStrip (s : String) : String :=
  ⟨((s.data.dropWhile pyIsSpace).reverse.dropWhile pyIsSpace).reverse⟩

/-- Python `sep.join(xs)`. -/
def pyJoin (sep : String) : List String → String
  | [] => ""
  | [x] => x
  | x :: xs => x ++ sep ++ pyJoin sep xs

/-- Python truthiness of an `Optional[str]`: `None` and `""` are falsy. -/
def optTruthy : Option String → Bool
  | none => false
  | some s => !(s == "")

/-! ## Constants (src/core/config.py) -/

def BLOG_RESEARCHER_AI_AGENT : String := "blog_researcher_ai_agent"

def BLOG_ARTIST_AI_AGENT : String := "blog_artist_ai_agent"

def PROMPTS_DIR : String := "prompts"

/-! ## Paths (BlogAgent._setup_paths, src/core/agent.py lines 82-104) -/

def agent_prompt_path (name : String) : String :=
  PROMPTS_DIR ++ "/" ++ name ++ "/agent_prompt.txt"

def enhanced_prompt_path (name : String) : String :=
  PROMPTS_DIR ++ "/" ++ name ++ "/enhanced_prompt.txt"

def disclaimer_path (name : String) : String :=
  PROMPTS_DIR ++ "/" ++ name ++ "/disclaimer.txt"

def blog_page_template_path (name : String) : String :=
  PROMPTS_DIR ++ "/" ++ name ++ "/blog_page_template.md"

def frontmatter_path : String := PROMPTS_DIR ++ "/_common/frontmatter.md"

def tags_prompt_path : String := PROMPTS_DIR ++ "/_common/tags_prompt.txt"

def title_prompt_path : String := PROMPTS_DIR ++ "/_common/summarize_for_title.txt"

def five_words_prompt_path : String := PROMPTS_DIR ++ "/_common/five_word_summary.txt"

def summarize_content_path : String := PROMPTS_DIR ++ "/_common/summarize_content.txt"

/-! ## Data model -/

/-- One record returned by the search client (title, url, description). -/
structure SearchResult where
  title : String
  url : String
  description : String
deriving DecidableEq, Repr

/-- One research source consulted (researcher.py `_gather_research`). An
empty `content_summary` models a falsy (`None` or `""`) summary. -/
structure ResearchItem where
  title : String
  url : String
  description : String
  content_summary : String
deriving DecidableEq, Repr

/-- The loaded template set (researcher.py `_load_templates`). -/
structure Templates where
  agent_prompt : String
  enhanced_prompt : String
  disclaimer : String
  frontmatter : String
  blog_template : String
  summarize_content : String
deriving DecidableEq, Repr

/-- Metadata derived from the draft body (researcher.py `_generate_metadata`). -/
structure DocumentMetadata where
  title : String
  tags : String
  filename : String
  date : String
deriving DecidableEq, Repr

/-- The configuration of one run (arguments of `BlogAgent.create`). `none`
models a Python `None`. -/
structure AgentConfig where
  agent_name : String
  agent_type : String
  topic : Option String
  image_prompt : Option String
  webhook_url : Option String
deriving DecidableEq, Repr

/-- The behaviour of every external collaborator and of the repository code
that sits outside `src/` for one run.  `Except.error m` models a Python
exception whose `str(e)` is `m`; `Option.none` models a call that returns
`None` after swallowing its own errors.

The fields `check_dependencies`, `ensure_directory_structure`,
`verify_paths` and `random_image_prompt` stand for
`blogi.utils.validation.check_dependencies`,
`blogi.utils.path_utils.ensure_directory_structure`,
`blogi.utils.validation.verify_paths` and
`OpenAIRandomImagePromptService.generate_random_image_prompt`, repository
code not under `src/`; they are modelled from the spec as opaque outcomes
(boolean precondition checks; a prompt string or a failure).
`artistGenerate` is modelled from the spec contract
`generate() -> (filename, document)` or failure, the artist pipeline class
not being under `src/`. -/
structure Env where
  check_dependencies : Bool
  ensure_directory_structure : Bool
  verify_paths : String → Bool
  anthropic_api_key : Bool
  random_image_prompt : Except String String
  promptFilesExist : String → Bool
  userapi_keys : Bool
  midjourney_run : String → String → Except String Unit
  anthropicInit : Except String Unit
  anthropicHasSession : Bool
  braveInit : Except String Unit
  closeFails : Nat → Bool
  anthropicCleanupFails : Bool
  braveHasCleanup : Bool
  braveCleanupFails : Bool
  artistGenerate : Except String (Option (String × String))
  saveOk : Bool
  readFile : String → Option String
  ask : String → Except String String
  fetch : String → Option String
  search : String → Except String (List SearchResult)

/-! ## Metadata helpers (src/core/agent.py lines 277-313)

Each helper embeds one method of `BlogAgent`; `env.readFile` models
`BlogAgent.read_file` (which swallows every error into `None`; a `None`
prompt then makes `prompt.format` raise, landing in the method's own
`except` branch, hence the `none => default` cases below). -/

/-- `BlogAgent.generate_title` (agent.py lines 277-289). -/
def generate_title (env : Env) (content : String) : String :=
  let d := "Default Title Post Is Here"
  if content = "" then d
  else
    match env.readFile title_prompt_path with
    | none => d
    | some prompt =>
      match env.ask (pyFormat prompt "content" content) with
      | .error _ => d
      | .ok response =>
        if response = "" then d else pyStrip (pyReplace response "\"" "")

/-- `BlogAgent.generate_filename` (agent.py lines 291-304): a five-word
summary, space-to-hyphen, truncated to 5 words or padded with `Update`. -/
def generate_filename (env : Env) (content : String) : String :=
  let d := "Default-Title-Post-Is-Here"
  match env.readFile five_words_prompt_path with
  | none => d
  | some prompt =>
    match env.ask (pyFormat prompt "content" content) with
    | .error _ => d
    | .ok response =>
      if response = "" then d
      else
        let summary := pyReplace (pyStrip response) " " "-"
        let words := pySplit summary '-'
        pyJoin "-"
          (if words.length > 5 then words.take 5
           else words ++ List.replicate (5 - words.length) "Update")

/-- `BlogAgent.generate_tags` (agent.py lines 306-313): the raw completion
response is returned as-is; only a raised exception yields `"[]"`. -/
def generate_tags (env : Env) (content : String) : String :=
  match env.readFile tags_prompt_path with
  | none => "[]"
  | some prompt =>
    match env.ask (pyFormat prompt "content" content) with
    | .error _ => "[]"
    | .ok response => response

/-! ## Researcher pipeline (src/generators/researcher.py) -/

/-- `ResearcherPostGenerator._load_templates` (researcher.py lines 12-29):
loads the six templates in dict-insertion order; a `None` or empty read
raises `ValueError("Failed to load template: <name>")`. -/
def load_template (env : Env) (name path : String) : Except String String :=
  match env.readFile path with
  | none => .error ("Failed to load template: " ++ name)
  | some c => if c = "" then .error ("Failed to load template: " ++ name) else .ok c

def load_templates (env : Env) (agent_name : String) : Except String Templates := do
  let ap ← load_template env "agent_prompt" (agent_prompt_path agent_name)
  let ep ← load_template env "enhanced_prompt" (enhanced_prompt_path agent_name)
  let di ← load_template env "disclaimer" (disclaimer_path agent_name)
  let fm ← load_template env "frontmatter" frontmatter_path
  let bt ← load_template env "blog_template" (blog_page_template_path agent_name)
  let sc ← load_template env "summarize_content" summarize_content_path
  return ⟨ap, ep, di, fm, bt, sc⟩

/-- One iteration of the `for result in search_results[:3]` loop in
`_gather_research` (researcher.py lines 67-79): a falsy fetched content
skips the result entirely (`if content:` guards the append); a summarize
exception propagates. -/
def gather_one (env : Env) (t : Templates) (r : SearchResult) :
    Except String (Option ResearchItem) :=
  match env.fetch r.url with
  | none => .ok none
  | some content =>
    if content = "" then .ok none
    else
      (env.ask (t.summarize_content ++ "\n\n" ++ content)).map fun summary =>
        some ⟨r.title, r.url, r.description, summary⟩

def gather_list (env : Env) (t : Templates) : List SearchResult → Except String (List ResearchItem)
  | [] => .ok []
  | r :: rs => do
    let item? ← gather_one env t r
    let rest ← gather_list env t rs
    return (match item? with
      | some i => i :: rest
      | none => rest)

/-- `ResearcherPostGenerator._gather_research` (researcher.py lines 62-84).
A search failure or a summarize failure propagates (the method re-raises). -/
def gather_research (env : Env) (t : Templates) (topic : String) :
    Except String (List ResearchItem) := do
  let results ← env.search topic
  gather_list env t (results.take 3)

/-- `ResearcherPostGenerator._format_research_summary` (researcher.py lines
86-93): one block per gathered item, in order, joined by blank lines; a
falsy summary renders as the fixed placeholder. -/
def format_research_summary (research_data : List ResearchItem) : String :=
  pyJoin "\n\n" (research_data.map fun d =>
    "Source: " ++ d.title ++ "\n" ++
    "URL: " ++ d.url ++ "\n\n" ++
    "Description:\n" ++ d.description ++ "\n\n" ++
    "Detailed Summary:\n" ++
    (if d.content_summary = "" then "No summary available." else d.content_summary))

/-- `ResearcherPostGenerator._format_prompt` (researcher.py lines 95-106). -/
def format_prompt (t : Templates) (topic today : String)
    (research_data : List ResearchItem) : String :=
  let research_summary := format_research_summary research_data
  let fap := pyFormat (pyFormat (pyFormat t.agent_prompt "topic" topic) "today" today)
    "disclaimer" t.disclaimer
  let fep := pyFormat (pyFormat t.enhanced_prompt "research_summary" research_summary)
    "topic" topic
  fap ++ "\n\n" ++ fep

/-- `ResearcherPostGenerator._generate_metadata` (researcher.py lines
108-114); `today` is `datetime.now().strftime` of the current date. -/
def generate_metadata (env : Env) (today content : String) : DocumentMetadata :=
  ⟨generate_title env content, generate_tags env content,
   generate_filename env content, today⟩

/-- `ResearcherPostGenerator._format_pages` (researcher.py lines 116-130),
returning the one `blog_page` entry. -/
def format_pages (t : Templates) (md : DocumentMetadata) (content : String) : String :=
  let fm := pyFormat (pyFormat (pyFormat (pyFormat t.frontmatter "title" md.title)
    "tags" md.tags) "date" md.date) "author" "AI Agent Researcher"
  pyFormat (pyFormat (pyFormat t.blog_template "frontmatter" fm)
    "disclaimer" t.disclaimer) "content" content

/-- `ResearcherPostGenerator._generate_filename` (researcher.py lines 132-133). -/
def researcher_filename (today filename : String) : String :=
  today ++ "-" ++ filename ++ ".md"

/-- `ResearcherPostGenerator.generate_blog_post` (researcher.py lines
31-60): the whole body is wrapped in `try/except`, so any exception
(template load, search, summarize or draft-body completion) becomes the
pair `("error.md", "Error generating post: <message>")`; an empty draft
body becomes `("default.md", "Failed to generate content")`.  The
`web_service.get_session` wrappers open and close sessions local to the
web service and are not observable in the returned value. -/
def researcher_generate_blog_post (env : Env) (agent_name topic today : String) :
    String × String :=
  match load_templates env agent_name with
  | .error m => ("error.md", "Error generating post: " ++ m)
  | .ok t =>
    match gather_research env t topic with
    | .error m => ("error.md", "Error generating post: " ++ m)
    | .ok research_data =>
      match env.ask (format_prompt t topic today research_data) with
      | .error m => ("error.md", "Error generating post: " ++ m)
      | .ok blog_content =>
        if blog_content = "" then ("default.md", "Failed to generate content")
        else
          let md := generate_metadata env today blog_content
          let page := format_pages t md blog_content
          (researcher_filename today md.filename, page)

/-! ## Agent lifecycle (src/core/agent.py lines 33-256) -/

/-- One tracked `aiohttp.ClientSession`; `id` is a ghost identifier (the
position in creation order) used to state which handles a teardown touched. -/
structure Session where
  id : Nat
  closed : Bool
deriving DecidableEq, Repr

/-- The mutable fields of a `BlogAgent` that the lifecycle code touches:
the tracked session list, the presence of the two client handles
(`self.anthropic`, `self.brave_client`, `None` at rest), and the closed
flag.  `nextId` is the ghost counter feeding `Session.id`. -/
structure AgentState where
  sessions : List Session
  anthropic : Bool
  brave : Bool
  isClosed : Bool
  nextId : Nat
deriving DecidableEq, Repr

/-- The freshly constructed agent (agent.py lines 58-61). -/
def initialAgentState : AgentState :=
  { sessions := [], anthropic := false, brave := false, isClosed := false, nextId := 0 }

/-- `BlogAgent.create_session` (agent.py lines 178-182): open a session and
append it to the tracked list. -/
def create_session (st : AgentState) : Session × AgentState :=
  let s : Session := ⟨st.nextId, false⟩
  (s, { st with sessions := st.sessions ++ [s], nextId := st.nextId + 1 })

/-- What one `cleanup` call did: the ids of the sessions it attempted to
close, and the aggregated error strings it collected. -/
structure CleanupReport where
  attempts : List Nat
  errors : List String
deriving DecidableEq, Repr

/-- `BlogAgent.cleanup` (agent.py lines 206-240).  A closed agent returns
at once.  Otherwise every non-closed tracked session is close-attempted in
its own `try/except` (a failing close only appends an error), then the
anthropic and brave handles are cleaned up likewise; the `finally` block
clears the session list, drops both handles and marks the agent closed. -/
def cleanup (env : Env) (st : AgentState) : AgentState × CleanupReport :=
  if st.isClosed then (st, ⟨[], []⟩)
  else
    let openIds := (st.sessions.filter fun s => !s.closed).map Session.id
    let sessionErrors := (openIds.filter env.closeFails).map
      fun _ => "Error closing session"
    let anthropicErrors :=
      if st.anthropic && env.anthropicCleanupFails then ["Error cleaning up anthropic"] else []
    let braveErrors :=
      if st.brave && env.braveHasCleanup && env.braveCleanupFails then
        ["Error cleaning up brave client"]
      else []
    ({ st with sessions := [], anthropic := false, brave := false, isClosed := true },
     ⟨openIds, sessionErrors ++ anthropicErrors ++ braveErrors⟩)

/-- `BlogAgent.initialize_services` (agent.py lines 184-204): main session,
anthropic service (plus its session when it has a `session` attribute),
and, for the researcher kind, the brave client and its session.  A failure
anywhere in the `try` block runs `cleanup` on whatever was already
acquired and re-raises; the error value carries the message, the
post-cleanup state and the cleanup report. -/
def initialize_services (env : Env) (agent_type : String) (st : AgentState) :
    Except (String × AgentState × CleanupReport) AgentState :=
  if st.isClosed then .error ("Agent has been closed", st, ⟨[], []⟩)
  else
    let st1 := (create_session st).2
    match env.anthropicInit with
    | .error m => .error (m, (cleanup env st1).1, (cleanup env st1).2)
    | .ok _ =>
      let stA := { st1 with anthropic := true }
      let stB := if env.anthropicHasSession then (create_session stA).2 else stA
      if agent_type = BLOG_RESEARCHER_AI_AGENT then
        match env.braveInit with
        | .error m => .error (m, (cleanup env stB).1, (cleanup env stB).2)
        | .ok _ =>
          let stC := { stB with brave := true }
          .ok (create_session stC).2
      else .ok stB

/-! ## Controller (`BlogAgent.create`, src/core/agent.py lines 106-161) -/

/-- The observable outcome of one `BlogAgent.create` run: the returned
`(success, message, filepath)` triple, the files written, ghost counters
for the resources touched (sessions opened, random-prompt calls, image
jobs submitted), the agent state after the last teardown (`none` when no
agent survived construction), and the reports of the cleanup calls made. -/
structure RunOutcome where
  success : Bool
  message : String
  filepath : Option String
  filesWritten : List (String × String)
  sessionsOpened : Nat
  randomPromptCalls : Nat
  imageJobs : Nat
  finalAgent : Option AgentState
  cleanupReports : List CleanupReport
deriving DecidableEq, Repr

/-- A failure result reached before any resource was touched. -/
def noResourceFail (msg : String) : RunOutcome :=
  ⟨false, msg, none, [], 0, 0, 0, none, []⟩

/-- `ProcessImageService.__init__` (src/services/process_image_service.py):
verifies the three prompt files exist, requires the two USERAPI
credentials, then constructs and runs `MidjourneyImageService` (repository
code not under `src/`; its run is one submitted image job whose outcome
`env.midjourney_run` decides).  Returns the outcome and the number of image
jobs submitted. -/
def process_image_service (env : Env) (agent_name image_prompt webhook_url : String) :
    Except String Unit × Nat :=
  if !env.promptFilesExist agent_name then
    (.error ("Required prompt file not found: " ++ agent_prompt_path agent_name), 0)
  else if !env.userapi_keys then
    (.error "Missing required environment variables for image service", 0)
  else
    match env.midjourney_run image_prompt webhook_url with
    | .ok _ => (.ok (), 1)
    | .error m => (.error m, 1)

/-- The validations run by `BlogAgent.__init__` (agent.py lines 46-47 and
67, in order: `_validate_agent_type`, `_validate_requirements`,
`_validate_initialization`); the object construction in between opens no
session (`WebService.__init__` only stores `None`). -/
def construct_agent (env : Env) (cfg : AgentConfig) : Except String Unit :=
  if cfg.agent_type ≠ BLOG_RESEARCHER_AI_AGENT ∧ cfg.agent_type ≠ BLOG_ARTIST_AI_AGENT then
    .error ("Invalid agent_type: " ++ cfg.agent_type)
  else if cfg.agent_type = BLOG_RESEARCHER_AI_AGENT ∧ !optTruthy cfg.topic then
    .error "Topic is required for researcher agent"
  else if cfg.agent_type = BLOG_ARTIST_AI_AGENT ∧ !optTruthy cfg.webhook_url then
    .error "Webhook URL is required for artist agent"
  else if !env.anthropic_api_key then
    .error "ANTHROPIC_API_KEY not found in environment variables"
  else .ok ()

/-- The exception message of calling `generator.generate()` on a
`ResearcherPostGenerator`: the class (researcher.py) defines
`generate_blog_post` but no method named `generate`, so the attribute
lookup in `BlogAgent.generate_blog_post` (agent.py line 273) raises
`AttributeError` with this text. -/
def researcherNoGenerate : String :=
  "\x27ResearcherPostGenerator\x27 object has no attribute \x27generate\x27"

/-- `BlogAgent.generate_blog_post` (agent.py lines 267-275): dispatches on
the agent type and calls `generator.generate()`; the `finally` clause
(`self.close()`) is a no-op because a `BlogAgent` never has a `client`
attribute.  For the artist kind the generator class is not under `src/`,
so its outcome is the spec-modelled `env.artistGenerate`; for the
researcher kind the call itself raises `AttributeError` (see
`researcherNoGenerate`). -/
def agent_generate_blog_post (env : Env) (cfg : AgentConfig) :
    Except String (Option (String × String)) :=
  if cfg.agent_type = BLOG_ARTIST_AI_AGENT then env.artistGenerate
  else .error researcherNoGenerate

/-- The directory the controller saves into (`OBSIDIAN_AI_POSTS_PATH`). -/
def obsidian_posts_path (filename : String) : String :=
  "obsidian_ai_posts/" ++ filename

/-- Lines 148-157 of `BlogAgent.create`: a falsy generation result is the
failure "Blog generation failed"; otherwise the document is saved
(`save_to_obsidian_notes` returns `None` exactly when the write raised)
and a `None` path is the failure "Failed to save blog post".  Returns the
result triple and the files written. -/
def handle_generation_result (result : Option (String × String)) (saveOk : Bool) :
    (Bool × String × Option String) × List (String × String) :=
  match result with
  | none => ((false, "Blog generation failed", none), [])
  | some (filename, page) =>
    if saveOk then
      ((true, "Blog post generated and saved successfully",
        some (obsidian_posts_path filename)), [(filename, page)])
    else ((false, "Failed to save blog post", none), [])

/-- The `async with cls(...) as agent:` block of `BlogAgent.create` (agent.py
lines 139-157) for an agent that passed its constructor validations:
`__aenter__` (`initialize_services`, which on partial failure tears down and
re-raises), the generation call, result handling and saving, and `__aexit__`
(`cleanup`, run on every exit of the block).  `rc` and `jobs` are the ghost
counters accumulated before the block. -/
def run_generation (env : Env) (cfg : AgentConfig) (rc jobs : Nat) : RunOutcome :=
  match initialize_services env cfg.agent_type initialAgentState with
  | .error (m, stf, rep) =>
    ⟨false, "Error: " ++ m, none, [], stf.nextId, rc, jobs, some stf, [rep]⟩
  | .ok st1 =>
    match agent_generate_blog_post env cfg with
    | .error m =>
      let c := cleanup env st1
      ⟨false, "Error: " ++ m, none, [], c.1.nextId, rc, jobs, some c.1, [c.2]⟩
    | .ok result =>
      let hr := handle_generation_result result env.saveOk
      let c := cleanup env st1
      ⟨hr.1.1, hr.1.2.1, hr.1.2.2, hr.2, c.1.nextId, rc, jobs, some c.1, [c.2]⟩

/-- `BlogAgent.create` (agent.py lines 106-161), the top-level entry point.
Phases in source order: the three precondition checks; for the artist
kind, the random image prompt (when none was supplied) and the
`ProcessImageService` run — both BEFORE the agent is constructed; the
constructor validations; then the `async with` block (`run_generation`).
Every exception lands in the `except Exception` clause and becomes
`(False, "Error: <message>", None)`.

`prompt_step` is the image-prompt acquisition (agent.py lines 126-129): for
an artist run without a supplied prompt, one call to the random-prompt
provider; its second component counts those calls.  `image_step` is the
`ProcessImageService` construction (agent.py lines 131-136), run for every
artist configuration; its second component counts submitted image jobs. -/
def prompt_step (env : Env) (cfg : AgentConfig) : Except String (Option String) × Nat :=
  if cfg.agent_type = BLOG_ARTIST_AI_AGENT ∧ !optTruthy cfg.image_prompt then
    ((env.random_image_prompt).map some, 1)
  else (.ok cfg.image_prompt, 0)

def image_step (env : Env) (cfg : AgentConfig) (image_prompt : Option String) :
    Except String Unit × Nat :=
  if cfg.agent_type = BLOG_ARTIST_AI_AGENT then
    process_image_service env cfg.agent_name (image_prompt.getD "") ((cfg.webhook_url).getD "")
  else (.ok (), 0)

def create (env : Env) (cfg : AgentConfig) : RunOutcome :=
  if !env.check_dependencies then noResourceFail "Dependency check failed"
  else if !env.ensure_directory_structure then noResourceFail "Directory structure check failed"
  else if !env.verify_paths cfg.agent_name then noResourceFail "Path verification failed"
  else
    match prompt_step env cfg with
    | (.error m, rc) => ⟨false, "Error: " ++ m, none, [], 0, rc, 0, none, []⟩
    | (.ok image_prompt, rc) =>
      match image_step env cfg image_prompt with
      | (.error m, jobs) => ⟨false, "Error: " ++ m, none, [], 0, rc, jobs, none, []⟩
      | (.ok _, jobs) =>
        match construct_agent env cfg with
        | .error m => ⟨false, "Error: " ++ m, none, [], 0, rc, jobs, none, []⟩
        | .ok _ => run_generation env cfg rc jobs

/-! ## Lifecycle lemmas -/

/-- Tearing down a live agent always yields a closed agent with an empty
session list and no client handles. -/
theorem cleanup_state (env : Env) (st : AgentState) (h : st.isClosed = false) :
    (cleanup env st).1 =
      { st with sessions := [], anthropic := false, brave := false, isClosed := true } := by
  simp [cleanup, h]

/-- Tearing down an already-closed agent is the identity with no report. -/
theorem cleanup_noop (env : Env) (st : AgentState) (h : st.isClosed = true) :
    cleanup env st = (st, ⟨[], []⟩) := by
  simp [cleanup, h]

/-- A successful service initialization from a fresh agent leaves the agent
live (not closed). -/
theorem initialize_services_ok_isClosed (env : Env) (ty : String) (st1 : AgentState)
    (h : initialize_services env ty initialAgentState = .ok st1) :
    st1.isClosed = false := by
  simp only [initialize_services, initialAgentState, create_session] at h
  split at h
  · simp_all
  · split at h
    · simp_all
    · split at h
      · split at h
        · simp_all
        · rw [Except.ok.injEq] at h
          subst h
          split <;> rfl
      · rw [Except.ok.injEq] at h
        subst h
        split <;> rfl

/-- A failed service initialization from a fresh agent hands back a state
that teardown has already closed and emptied. -/
theorem initialize_services_error_state (env : Env) (ty m : String) (stf : AgentState)
    (rep : CleanupReport)
    (h : initialize_services env ty initialAgentState = .error (m, stf, rep)) :
    stf.isClosed = true ∧ stf.sessions = [] := by
  simp only [initialize_services, initialAgentState, create_session] at h
  split at h
  · simp_all
  · split at h
    · rw [Except.error.injEq, Prod.mk.injEq, Prod.mk.injEq] at h
      obtain ⟨-, hb, -⟩ := h
      subst hb
      simp [cleanup]
    · split at h
      · split at h
        · rw [Except.error.injEq, Prod.mk.injEq, Prod.mk.injEq] at h
          obtain ⟨-, hb, -⟩ := h
          subst hb
          rw [cleanup_state env _ (by split <;> rfl)]
          exact ⟨rfl, rfl⟩
        · simp_all
      · simp_all

/-- A successful service initialization means the anthropic client
initialization succeeded (it is the first fallible acquisition). -/
theorem initialize_services_ok_anthropic (env : Env) (ty : String) (st st1 : AgentState)
    (h : initialize_services env ty st = .ok st1) : env.anthropicInit = .ok () := by
  unfold initialize_services at h
  split at h
  · simp at h
  · cases ha : env.anthropicInit with
    | error m => rw [ha] at h; simp at h
    | ok u => rfl

/-- Teardown of a live agent closes it and empties its handle set. -/
theorem cleanup_fst_closed (env : Env) (st : AgentState) (h : st.isClosed = false) :
    (cleanup env st).1.isClosed = true ∧ (cleanup env st).1.sessions = [] := by
  rw [cleanup_state env st h]
  exact ⟨rfl, rfl⟩

/-- Case analysis of one `create` run: either it returns a failure triple
with nothing persisted, or it returns the success triple — which requires
the constructor validations, the anthropic initialization and the save to
have succeeded and the generation call to have returned a pair — and then
it persists exactly that document. -/
theorem create_cases (env : Env) (cfg : AgentConfig) :
    ((create env cfg).success = false ∧ (create env cfg).filesWritten = [] ∧
     (create env cfg).filepath = none) ∨
    ((create env cfg).success = true ∧ construct_agent env cfg = .ok () ∧
     env.anthropicInit = .ok () ∧ env.saveOk = true ∧
     ∃ fn page, agent_generate_blog_post env cfg = .ok (some (fn, page)) ∧
       (create env cfg).filesWritten = [(fn, page)] ∧
       (create env cfg).filepath = some (obsidian_posts_path fn)) := by
  unfold create run_generation
  split
  · left; exact ⟨rfl, rfl, rfl⟩
  split
  · left; exact ⟨rfl, rfl, rfl⟩
  split
  · left; exact ⟨rfl, rfl, rfl⟩
  split
  · left; exact ⟨rfl, rfl, rfl⟩
  split
  · left; exact ⟨rfl, rfl, rfl⟩
  split
  · left; exact ⟨rfl, rfl, rfl⟩
  split
  · left; exact ⟨rfl, rfl, rfl⟩
  split
  · left; exact ⟨rfl, rfl, rfl⟩
  rename_i x3 result hgen
  rename_i x2 st1 hinit
  rename_i x1 u hcon
  rcases result with - | ⟨fn, page⟩
  · left
    refine ⟨?_, ?_, ?_⟩ <;> simp [handle_generation_result]
  · cases hs : env.saveOk with
    | false =>
      left
      refine ⟨?_, ?_, ?_⟩ <;> simp [handle_generation_result]
    | true =>
      right
      refine ⟨?_, hcon, initialize_services_ok_anthropic env cfg.agent_type _ _ hinit,
        rfl, fn, page, hgen, ?_, ?_⟩ <;> simp [handle_generation_result]

/-- Whatever the configuration and the collaborators do, a `create` run that
constructed no agent opened no session, and one that did construct an agent
ends with that agent torn down: closed, with an empty tracked-handle set. -/
theorem create_teardown (env : Env) (cfg : AgentConfig) :
    ((create env cfg).finalAgent = none → (create env cfg).sessionsOpened = 0) ∧
    ∀ st, (create env cfg).finalAgent = some st → st.isClosed = true ∧ st.sessions = [] := by
  unfold create run_generation
  split
  · exact ⟨fun _ => rfl, fun st hst => by simp [noResourceFail] at hst⟩
  split
  · exact ⟨fun _ => rfl, fun st hst => by simp [noResourceFail] at hst⟩
  split
  · exact ⟨fun _ => rfl, fun st hst => by simp [noResourceFail] at hst⟩
  split
  · exact ⟨fun _ => rfl, fun st hst => by simp at hst⟩
  split
  · exact ⟨fun _ => rfl, fun st hst => by simp at hst⟩
  split
  · exact ⟨fun _ => rfl, fun st hst => by simp at hst⟩
  split
  · rename_i xi m stf rep hinit
    refine ⟨fun hn => by simp at hn, fun st hst => ?_⟩
    have := initialize_services_error_state env cfg.agent_type m stf rep hinit
    simp only [Option.some.injEq] at hst
    rw [← hst]
    exact this
  rename_i xi st1 hinit
  have hlive := initialize_services_ok_isClosed env cfg.agent_type st1 hinit
  split
  · refine ⟨fun hn => by simp at hn, fun st hst => ?_⟩
    simp only [Option.some.injEq] at hst
    rw [← hst]
    exact cleanup_fst_closed env st1 hlive
  · refine ⟨fun hn => by simp at hn, fun st hst => ?_⟩
    simp only [Option.some.injEq] at hst
    rw [← hst]
    exact cleanup_fst_closed env st1 hlive

/-! ## Concrete environments and configurations for witnesses -/

/-- A benign environment: every check passes and every collaborator
succeeds with a fixed small response. -/
def baseEnv : Env where
  check_dependencies := true
  ensure_directory_structure := true
  verify_paths := fun _ => true
  anthropic_api_key := true
  random_image_prompt := .ok "a painting of a fox"
  promptFilesExist := fun _ => true
  userapi_keys := true
  midjourney_run := fun _ _ => .ok ()
  anthropicInit := .ok ()
  anthropicHasSession := false
  braveInit := .ok ()
  closeFails := fun _ => false
  anthropicCleanupFails := false
  braveHasCleanup := true
  braveCleanupFails := false
  artistGenerate := .ok none
  saveOk := true
  readFile := fun _ => some "T"
  ask := fun _ => .ok "R"
  fetch := fun _ => some "C"
  search := fun _ => .ok []

/-- A researcher configuration with a present topic. -/
def cfgResearcher : AgentConfig :=
  ⟨"topic_researcher", BLOG_RESEARCHER_AI_AGENT, some "quantum computing", none, none⟩

/-- Whether, under `env`, the researcher pipeline would reach its draft-body
completion call and that call would fail or return an empty response. -/
def body_call_fails_or_empty (env : Env) (agent_name topic today : String) : Bool :=
  match load_templates env agent_name with
  | .error _ => false
  | .ok t =>
    match gather_research env t topic with
    | .error _ => false
    | .ok rd =>
      match env.ask (format_prompt t topic today rd) with
      | .error _ => true
      | .ok s => s == ""

/-! ## Claims -/

/-- C6: teardown is idempotent.  For every agent state (under the invariant
— true of every state the program reaches — that a closed agent holds no
sessions and no client handles), the first `cleanup` empties the tracked
session list and both client handles, and a second `cleanup` immediately
after is a no-op returning the same state with no close attempts and no
errors. -/
theorem C6_cleanup_idempotent (env env2 : Env) (st : AgentState)
    (h : st.isClosed = true → st.sessions = [] ∧ st.anthropic = false ∧ st.brave = false) :
    (cleanup env st).1.sessions = [] ∧ (cleanup env st).1.anthropic = false ∧
    (cleanup env st).1.brave = false ∧
    cleanup env2 (cleanup env st).1 = ((cleanup env st).1, ⟨[], []⟩) := by
  cases hc : st.isClosed with
  | true =>
    obtain ⟨h1, h2, h3⟩ := h hc
    rw [cleanup_noop env st hc]
    exact ⟨h1, h2, h3, cleanup_noop env2 st hc⟩
  | false =>
    rw [cleanup_state env st hc]
    exact ⟨rfl, rfl, rfl, cleanup_noop env2 _ rfl⟩

/-- Witness for C6: a live agent holding two open sessions and both client
handles. -/
theorem C6_cleanup_idempotent_witness :
    (cleanup baseEnv ⟨[⟨0, false⟩, ⟨1, false⟩], true, true, false, 2⟩).1.sessions = [] ∧
    (cleanup baseEnv ⟨[⟨0, false⟩, ⟨1, false⟩], true, true, false, 2⟩).1.anthropic = false ∧
    (cleanup baseEnv ⟨[⟨0, false⟩, ⟨1, false⟩], true, true, false, 2⟩).1.brave = false ∧
    cleanup baseEnv (cleanup baseEnv ⟨[⟨0, false⟩, ⟨1, false⟩], true, true, false, 2⟩).1 =
      ((cleanup baseEnv ⟨[⟨0, false⟩, ⟨1, false⟩], true, true, false, 2⟩).1, ⟨[], []⟩) :=
  C6_cleanup_idempotent baseEnv baseEnv _ (by decide)

/-- C7: teardown is complete under partial acquisition failure.  (1) When
the anthropic client fails to initialize, only the one already-opened main
session (id 0) is close-attempted — never a handle that was not acquired —
and teardown leaves a closed, empty state inside the re-raised error.
(2) Likewise when the brave client fails: exactly the sessions opened so
far ([0, 1] when the anthropic service carried a session, else [0]) are
close-attempted.  (3) `cleanup` close-attempts every open tracked session
regardless of which closes fail, and aggregates one error per failing
close plus one per failing client cleanup.  (4) An acquisition failure
makes the whole run return a failure. -/
theorem C7_teardown_complete (env : Env) :
    (∀ m, env.anthropicInit = .error m →
      ∃ rep stf, initialize_services env BLOG_RESEARCHER_AI_AGENT initialAgentState =
          .error (m, stf, rep) ∧ rep.attempts = [0] ∧ stf.sessions = [] ∧
          stf.isClosed = true) ∧
    (∀ m, env.anthropicInit = .ok () → env.braveInit = .error m →
      ∃ rep stf, initialize_services env BLOG_RESEARCHER_AI_AGENT initialAgentState =
          .error (m, stf, rep) ∧
        rep.attempts = (if env.anthropicHasSession then [0, 1] else [0]) ∧
        stf.sessions = [] ∧ stf.isClosed = true) ∧
    (∀ st : AgentState, st.isClosed = false →
      (cleanup env st).2.attempts = (st.sessions.filter fun s => !s.closed).map Session.id ∧
      (cleanup env st).2.errors.length =
        (((st.sessions.filter fun s => !s.closed).map Session.id).filter env.closeFails).length +
        (if st.anthropic && env.anthropicCleanupFails then 1 else 0) +
        (if st.brave && env.braveHasCleanup && env.braveCleanupFails then 1 else 0)) ∧
    (∀ (cfg : AgentConfig) m, env.anthropicInit = .error m →
      (create env cfg).success = false) := by
  refine ⟨?_, ?_, ?_, ?_⟩
  · intro m hm
    refine ⟨⟨[0], if env.closeFails 0 then ["Error closing session"] else []⟩,
            ⟨[], false, false, true, 1⟩, ?_, rfl, rfl, rfl⟩
    cases hcf : env.closeFails 0 <;>
      simp [initialize_services, initialAgentState, create_session, cleanup, hm, hcf]
  · intro m ha hb
    refine ⟨⟨if env.anthropicHasSession then [0, 1] else [0],
             ((if env.anthropicHasSession then [0, 1] else [0]).filter env.closeFails).map
               (fun _ => "Error closing session") ++
             (if env.anthropicCleanupFails then ["Error cleaning up anthropic"] else [])⟩,
            ⟨[], false, false, true, if env.anthropicHasSession then 2 else 1⟩,
            ?_, rfl, rfl, rfl⟩
    cases hs : env.anthropicHasSession <;>
      simp [initialize_services, initialAgentState, create_session, cleanup, ha, hb, hs]
  · intro st hst
    constructor
    · simp [cleanup, hst]
    · simp only [cleanup, hst, Bool.false_eq_true, if_false, List.length_append]
      rw [List.length_map]
      split_ifs <;> simp_all
  · intro cfg m hm
    rcases create_cases env cfg with ⟨h1, -, -⟩ | ⟨-, -, hA, -⟩
    · exact h1
    · rw [hm] at hA
      simp at hA

/-- Witness for C7: an environment whose anthropic initialization fails. -/
theorem C7_teardown_complete_witness :
    ∃ rep stf,
      initialize_services { baseEnv with anthropicInit := .error "boom" }
          BLOG_RESEARCHER_AI_AGENT initialAgentState = .error ("boom", stf, rep) ∧
      rep.attempts = [0] ∧ stf.sessions = [] ∧ stf.isClosed = true :=
  (C7_teardown_complete { baseEnv with anthropicInit := .error "boom" }).1 "boom" rfl

/-- C8: the top-level entry point is total over errors: for every
configuration and every collaborator behaviour it returns a
`(success, message, filepath)` triple (the model is a total function, so
no exception escapes), and teardown still ran: a run that constructed an
agent leaves it closed with an empty tracked-session list, and a run that
never constructed one opened no session at all. -/
theorem C8_create_total_teardown (env : Env) (cfg : AgentConfig) :
    (∃ b msg fp, ((create env cfg).success, (create env cfg).message,
      (create env cfg).filepath) = (b, msg, fp)) ∧
    ((create env cfg).finalAgent = none → (create env cfg).sessionsOpened = 0) ∧
    ∀ st, (create env cfg).finalAgent = some st → st.isClosed = true ∧ st.sessions = [] :=
  ⟨⟨_, _, _, rfl⟩, (create_teardown env cfg).1, (create_teardown env cfg).2⟩

/-- C5 counterexample: an artist configuration with an absent webhook URL,
in an environment where every collaborator succeeds: the run does return a
failure, but only after one image job was already submitted — the claimed
resource-acquisition count of 0 is violated (the `ProcessImageService` run
at agent.py lines 131-136 precedes the webhook validation at line 79). -/
theorem C5_counterexample :
    (create baseEnv ⟨"prompt_artist", BLOG_ARTIST_AI_AGENT, none, some "a cat", none⟩).success
      = false ∧
    (create baseEnv ⟨"prompt_artist", BLOG_ARTIST_AI_AGENT, none, some "a cat", none⟩).message
      = "Error: Webhook URL is required for artist agent" ∧
    (create baseEnv ⟨"prompt_artist", BLOG_ARTIST_AI_AGENT, none, some "a cat", none⟩).imageJobs
      = 1 :=
  ⟨rfl, rfl, rfl⟩

/-- C5 amended: for a RESEARCHER configuration with an empty or absent
topic, `create` fails with zero resource use of any kind (no session, no
random-prompt call, no image job, no constructed agent); for an ARTIST
configuration with an empty or absent webhook URL, `create` always returns
a failure, but the image-prompt and image-job services may already have run
before the validation failure (see the counterexample). -/
theorem C5_researcher_validation_resources (env : Env) (cfg : AgentConfig) :
    (cfg.agent_type = BLOG_RESEARCHER_AI_AGENT → optTruthy cfg.topic = false →
      (create env cfg).success = false ∧ (create env cfg).sessionsOpened = 0 ∧
      (create env cfg).imageJobs = 0 ∧ (create env cfg).randomPromptCalls = 0 ∧
      (create env cfg).finalAgent = none) ∧
    (cfg.agent_type = BLOG_ARTIST_AI_AGENT → optTruthy cfg.webhook_url = false →
      (create env cfg).success = false) := by
  constructor
  · intro ht hr
    have hna : ¬cfg.agent_type = BLOG_ARTIST_AI_AGENT := by
      rw [ht]; decide
    have hps : prompt_step env cfg = (.ok cfg.image_prompt, 0) := by
      unfold prompt_step
      rw [if_neg fun hx => hna hx.1]
    have his : image_step env cfg cfg.image_prompt = (.ok (), 0) := by
      unfold image_step
      rw [if_neg hna]
    have hcon : construct_agent env cfg = .error "Topic is required for researcher agent" := by
      unfold construct_agent
      rw [if_neg fun hx => hx.1 ht, if_pos ⟨ht, by rw [hr]; rfl⟩]
    unfold create
    cases h1 : env.check_dependencies with
    | false => exact ⟨rfl, rfl, rfl, rfl, rfl⟩
    | true =>
    cases h2 : env.ensure_directory_structure with
    | false => exact ⟨rfl, rfl, rfl, rfl, rfl⟩
    | true =>
    cases h3 : env.verify_paths cfg.agent_name with
    | false => exact ⟨rfl, rfl, rfl, rfl, rfl⟩
    | true =>
    simp only [hps, his, hcon]
    exact ⟨rfl, rfl, rfl, rfl, rfl⟩
  · intro ha hw
    have hcon : construct_agent env cfg = .error "Webhook URL is required for artist agent" := by
      unfold construct_agent
      rw [if_neg fun hx => hx.2 ha,
        if_neg fun hx => absurd (ha.symm.trans hx.1) (by decide),
        if_pos ⟨ha, by rw [hw]; rfl⟩]
    rcases create_cases env cfg with ⟨h1, -, -⟩ | ⟨-, hc2, -⟩
    · exact h1
    · rw [hcon] at hc2
      simp at hc2

/-- Witness for C5 amended: a researcher configuration with an empty topic. -/
theorem C5_researcher_validation_resources_witness :
    (create baseEnv ⟨"topic_researcher", BLOG_RESEARCHER_AI_AGENT, some "", none, none⟩).success
        = false ∧
    (create baseEnv ⟨"topic_researcher", BLOG_RESEARCHER_AI_AGENT, some "", none, none⟩).sessionsOpened
        = 0 ∧
    (create baseEnv ⟨"topic_researcher", BLOG_RESEARCHER_AI_AGENT, some "", none, none⟩).imageJobs
        = 0 ∧
    (create baseEnv ⟨"topic_researcher", BLOG_RESEARCHER_AI_AGENT, some "", none, none⟩).randomPromptCalls
        = 0 ∧
    (create baseEnv ⟨"topic_researcher", BLOG_RESEARCHER_AI_AGENT, some "", none, none⟩).finalAgent
        = none :=
  (C5_researcher_validation_resources baseEnv
    ⟨"topic_researcher", BLOG_RESEARCHER_AI_AGENT, some "", none, none⟩).1 rfl rfl

/-- C2: for every researcher run whose draft-body completion call would
fail or return empty, `create` returns success = false, writes no file and
returns no file path.  (In this code the conclusion holds for a blunt
reason: the controller's dispatch `generator.generate()` raises
`AttributeError` for every researcher run — see `researcherNoGenerate` —
so no researcher run ever persists anything.) -/
theorem C2_body_failure_aborts (env : Env) (cfg : AgentConfig) (today : String)
    (hr : cfg.agent_type = BLOG_RESEARCHER_AI_AGENT)
    (_hbody : body_call_fails_or_empty env cfg.agent_name ((cfg.topic).getD "") today = true) :
    (create env cfg).success = false ∧ (create env cfg).filesWritten = [] ∧
    (create env cfg).filepath = none := by
  rcases create_cases env cfg with h | ⟨-, -, -, -, fn, page, hgen, -, -⟩
  · exact h
  · exfalso
    unfold agent_generate_blog_post at hgen
    rw [if_neg (by rw [hr]; decide)] at hgen
    simp at hgen

/-- Witness for C2: an environment in which every template loads, the
search returns no results, and every completion call returns the empty
string — so the draft-body call returns empty. -/
theorem C2_body_failure_aborts_witness :
    (create { baseEnv with ask := fun _ => .ok "" } cfgResearcher).success = false ∧
    (create { baseEnv with ask := fun _ => .ok "" } cfgResearcher).filesWritten = [] ∧
    (create { baseEnv with ask := fun _ => .ok "" } cfgResearcher).filepath = none :=
  C2_body_failure_aborts { baseEnv with ask := fun _ => .ok "" } cfgResearcher "2026-10-12"
    rfl (by decide)

/-- Three search results; fetching the 2nd URL fails; everything else
succeeds, with every summary completion returning "S". -/
def envC1 : Env := { baseEnv with
  search := fun _ => .ok [⟨"T1", "u1", "d1"⟩, ⟨"T2", "u2", "d2"⟩, ⟨"T3", "u3", "d3"⟩]
  fetch := fun u => if u = "u2" then none else some ("content " ++ u)
  ask := fun _ => .ok "S" }

def tC1 : Templates := ⟨"AP", "EP", "D", "FM", "BT", "SC"⟩

/-- C1 counterexample: with 3 search results and the 2nd fetch failing, the
gathered research holds only results 1 and 3 — the `if content:` guard at
researcher.py line 70 DROPS the failed item instead of keeping it — so the
assembled summary has 2 source blocks, not 3, and no placeholder block for
the 2nd result. -/
theorem C1_counterexample :
    gather_research envC1 tC1 "quantum" =
      .ok [⟨"T1", "u1", "d1", "S"⟩, ⟨"T3", "u3", "d3", "S"⟩] ∧
    (gather_research envC1 tC1 "quantum").toOption.map List.length = some 2 ∧
    ¬(gather_research envC1 tC1 "quantum").toOption.map List.length = some 3 ∧
    format_research_summary [⟨"T1", "u1", "d1", "S"⟩, ⟨"T3", "u3", "d3", "S"⟩] =
      "Source: T1\nURL: u1\n\nDescription:\nd1\n\nDetailed Summary:\nS\n\n" ++
      "Source: T3\nURL: u3\n\nDescription:\nd3\n\nDetailed Summary:\nS" :=
  ⟨rfl, rfl, by decide, rfl⟩

/-- C1 amended: a result whose fetch fails is DROPPED from the research
data (with 3 results and the 2nd fetch failing, exactly the 1st and 3rd
survive, in rank order); the "No summary available." placeholder appears
only for a KEPT item whose summarization returned a falsy (empty) summary. -/
theorem C1_fetch_failure_drops_item (env : Env) (t : Templates) (topic : String)
    (r1 r2 r3 : SearchResult) (c1 c3 s1 s3 : String)
    (hs : env.search topic = .ok [r1, r2, r3])
    (h1 : env.fetch r1.url = some c1) (h1e : ¬c1 = "")
    (h2 : env.fetch r2.url = none)
    (h3 : env.fetch r3.url = some c3) (h3e : ¬c3 = "")
    (ha1 : env.ask (t.summarize_content ++ "\n\n" ++ c1) = .ok s1)
    (ha3 : env.ask (t.summarize_content ++ "\n\n" ++ c3) = .ok s3) :
    gather_research env t topic =
      .ok [⟨r1.title, r1.url, r1.description, s1⟩, ⟨r3.title, r3.url, r3.description, s3⟩] ∧
    ∀ a b c, format_research_summary [⟨a, b, c, ""⟩] =
      "Source: " ++ a ++ "\n" ++ "URL: " ++ b ++ "\n\n" ++ "Description:\n" ++ c ++ "\n\n" ++
      "Detailed Summary:\n" ++ "No summary available." := by
  constructor
  · unfold gather_research
    rw [hs]
    show gather_list env t (List.take 3 [r1, r2, r3]) = _
    simp [gather_list, gather_one, h1, h2, h3, ha1, ha3, h1e, h3e, List.take,
      bind, Except.bind, Except.map, pure, Except.pure]
  · intro a b c
    rfl

/-- Witness for C1 amended, at the concrete counterexample environment. -/
theorem C1_fetch_failure_drops_item_witness :
    gather_research envC1 tC1 "quantum" =
      .ok [⟨"T1", "u1", "d1", "S"⟩, ⟨"T3", "u3", "d3", "S"⟩] :=
  (C1_fetch_failure_drops_item envC1 tC1 "quantum" ⟨"T1", "u1", "d1"⟩ ⟨"T2", "u2", "d2"⟩
    ⟨"T3", "u3", "d3"⟩ "content u1" "content u3" "S" "S" rfl rfl (by decide) rfl rfl
    (by decide) rfl rfl).1

/-- C3 counterexample: when the tags completion call returns (rather than
raises) an empty response, `generate_tags` returns that empty response
unchanged — not the claimed literal `"[]"` (agent.py line 310 returns the
raw response with no emptiness check). -/
theorem C3_counterexample :
    generate_tags { baseEnv with ask := fun _ => .ok "" } "draft body" = "" ∧
    ¬generate_tags { baseEnv with ask := fun _ => .ok "" } "draft body" = "[]" :=
  ⟨rfl, by decide⟩

/-- C3 amended: `generate_title` and `generate_filename` return their fixed
defaults both when the completion call raises and when it returns an empty
response; `generate_tags` returns `"[]"` only when the call raises, and
returns the raw response unchanged (even when empty) otherwise.  All three
helpers are total functions of the environment: no error propagates. -/
theorem C3_metadata_field_defaults (env : Env) (content p : String) :
    ((env.readFile title_prompt_path = some p →
        ∀ m, env.ask (pyFormat p "content" content) = .error m →
        generate_title env content = "Default Title Post Is Here") ∧
     (env.readFile title_prompt_path = some p →
        env.ask (pyFormat p "content" content) = .ok "" →
        generate_title env content = "Default Title Post Is Here")) ∧
    ((env.readFile five_words_prompt_path = some p →
        ∀ m, env.ask (pyFormat p "content" content) = .error m →
        generate_filename env content = "Default-Title-Post-Is-Here") ∧
     (env.readFile five_words_prompt_path = some p →
        env.ask (pyFormat p "content" content) = .ok "" →
        generate_filename env content = "Default-Title-Post-Is-Here")) ∧
    ((env.readFile tags_prompt_path = some p →
        ∀ m, env.ask (pyFormat p "content" content) = .error m →
        generate_tags env content = "[]") ∧
     (env.readFile tags_prompt_path = some p →
        ∀ s, env.ask (pyFormat p "content" content) = .ok s →
        generate_tags env content = s)) := by
  refine ⟨⟨?_, ?_⟩, ⟨?_, ?_⟩, ⟨?_, ?_⟩⟩
  · intro hf m ha
    by_cases hc : content = "" <;> simp [generate_title, hf, ha, hc]
  · intro hf ha
    by_cases hc : content = "" <;> simp [generate_title, hf, ha, hc]
  · intro hf m ha
    simp [generate_filename, hf, ha]
  · intro hf ha
    simp [generate_filename, hf, ha]
  · intro hf m ha
    simp [generate_tags, hf, ha]
  · intro hf s ha
    simp [generate_tags, hf, ha]

/-- Witness for C3 amended: an empty tags response passes through as-is;
a raised title call yields the title default. -/
theorem C3_metadata_field_defaults_witness :
    generate_tags { baseEnv with ask := fun _ => .ok "" } "body" = "" ∧
    generate_title { baseEnv with ask := fun _ => .error "api down" } "body" =
      "Default Title Post Is Here" :=
  ⟨(C3_metadata_field_defaults { baseEnv with ask := fun _ => .ok "" } "body" "T").2.2.2
      rfl "" rfl,
   (C3_metadata_field_defaults { baseEnv with ask := fun _ => .error "api down" }
      "body" "T").1.1 rfl "api down" rfl⟩

/-- The truncate-or-pad step of `generate_filename` always produces a
five-token list. -/
theorem take_pad_length_five (ws : List String) :
    (if ws.length > 5 then ws.take 5
     else ws ++ List.replicate (5 - ws.length) "Update").length = 5 := by
  split
  · rw [List.length_take]
    omega
  · rw [List.length_append, List.length_replicate]
    omega

def env5w : Env := { baseEnv with ask := fun _ => .ok "alpha-beta-gamma-delta-eps" }

def env2w : Env := { baseEnv with ask := fun _ => .ok "foo-bar" }

def env7w : Env := { baseEnv with ask := fun _ => .ok "a-b-c-d-e-f-g" }

/-- C4: the filename stem is always exactly 5 hyphen-joined tokens: an
exactly-5-word response is kept unchanged, a shorter one is padded with
`Update`, a longer one truncated to its first 5 words; the researcher
filename prefixes the date and appends `.md`. -/
theorem C4_filename_normalization :
    (∀ (env : Env) (content : String), ∃ ts : List String,
      ts.length = 5 ∧ generate_filename env content = pyJoin "-" ts) ∧
    (generate_filename env5w "body" = "alpha-beta-gamma-delta-eps" ∧
      researcher_filename "2026-10-12" (generate_filename env5w "body") =
        "2026-10-12-alpha-beta-gamma-delta-eps.md") ∧
    (generate_filename env2w "body" = "foo-bar-Update-Update-Update" ∧
      researcher_filename "2026-10-12" (generate_filename env2w "body") =
        "2026-10-12-foo-bar-Update-Update-Update.md") ∧
    (generate_filename env7w "body" = "a-b-c-d-e" ∧
      researcher_filename "2026-10-12" (generate_filename env7w "body") =
        "2026-10-12-a-b-c-d-e.md") := by
  refine ⟨?_, ⟨rfl, rfl⟩, ⟨rfl, rfl⟩, ⟨rfl, rfl⟩⟩
  intro env content
  rcases hrf : env.readFile five_words_prompt_path with - | p
  · exact ⟨["Default", "Title", "Post", "Is", "Here"], rfl,
      by simp [generate_filename, hrf]; rfl⟩
  · rcases hask : env.ask (pyFormat p "content" content) with m | r
    · exact ⟨["Default", "Title", "Post", "Is", "Here"], rfl,
        by simp [generate_filename, hrf, hask]; rfl⟩
    · by_cases hr : r = ""
      · exact ⟨["Default", "Title", "Post", "Is", "Here"], rfl,
          by simp [generate_filename, hrf, hask, hr]; rfl⟩
      · exact ⟨_, take_pad_length_five (pySplit (pyReplace (pyStrip r) " " "-") '-'),
          by simp [generate_filename, hrf, hask, hr]⟩

/-- C10: every exception inside the researcher pipeline — template-load
failure, research-gathering failure (search or summarize), or a raised
draft-body completion — is swallowed by `generate_blog_post`'s `except`
clause and becomes the pair `("error.md", "Error generating post: <msg>")`;
and a controller that receives this (truthy) pair with a succeeding save
treats the run as a SUCCESS and persists the error text as `error.md`. -/
theorem C10_error_pair_treated_as_success (env : Env) (an topic today m : String) :
    (load_templates env an = .error m →
      researcher_generate_blog_post env an topic today =
        ("error.md", "Error generating post: " ++ m)) ∧
    (∀ t, load_templates env an = .ok t → gather_research env t topic = .error m →
      researcher_generate_blog_post env an topic today =
        ("error.md", "Error generating post: " ++ m)) ∧
    (∀ t rd, load_templates env an = .ok t → gather_research env t topic = .ok rd →
      env.ask (format_prompt t topic today rd) = .error m →
      researcher_generate_blog_post env an topic today =
        ("error.md", "Error generating post: " ++ m)) ∧
    (∀ page, handle_generation_result (some ("error.md", page)) true =
      ((true, "Blog post generated and saved successfully",
        some (obsidian_posts_path "error.md")), [("error.md", page)])) := by
  refine ⟨?_, ?_, ?_, fun page => rfl⟩
  · intro h
    simp [researcher_generate_blog_post, h]
  · intro t h1 h2
    simp [researcher_generate_blog_post, h1, h2]
  · intro t rd h1 h2 h3
    simp [researcher_generate_blog_post, h1, h2, h3]

/-- Witness for C10: every template read fails, so the pipeline returns the
error pair for the first template; a controller handling that pair with a
succeeding save persists it and reports success. -/
theorem C10_error_pair_treated_as_success_witness :
    researcher_generate_blog_post { baseEnv with readFile := fun _ => none }
        "topic_researcher" "quantum computing" "2026-10-12" =
      ("error.md", "Error generating post: Failed to load template: agent_prompt") ∧
    handle_generation_result (some ("error.md", "Error generating post: boom")) true =
      ((true, "Blog post generated and saved successfully",
        some (obsidian_posts_path "error.md")),
       [("error.md", "Error generating post: boom")]) :=
  ⟨(C10_error_pair_treated_as_success { baseEnv with readFile := fun _ => none }
      "topic_researcher" "quantum computing" "2026-10-12"
      "Failed to load template: agent_prompt").1 rfl,
   (C10_error_pair_treated_as_success baseEnv "x" "x" "x" "x").2.2.2
      "Error generating post: boom"⟩

/-- The template store of the end-to-end scenario: role/enhanced/disclaimer
and the two metadata prompts are plain texts; the frontmatter and blog-page
templates carry the placeholders the source substitutes. -/
def readFileC9 : String → Option String := fun p =>
  if p = agent_prompt_path "topic_researcher" then some "AP"
  else if p = enhanced_prompt_path "topic_researcher" then some "EP"
  else if p = disclaimer_path "topic_researcher" then some "D"
  else if p = frontmatter_path then
    some "title: \x7btitle\x7d\ntags: \x7btags\x7d\ndate: \x7bdate\x7d\nauthor: \x7bauthor\x7d"
  else if p = blog_page_template_path "topic_researcher" then
    some "\x7bfrontmatter\x7d\n\x7bdisclaimer\x7d\n\x7bcontent\x7d"
  else if p = summarize_content_path then some "SC"
  else if p = title_prompt_path then some "TP"
  else if p = tags_prompt_path then some "GP"
  else if p = five_words_prompt_path then some "FWP"
  else none

/-- The completion client of the end-to-end scenario, keyed on the exact
prompts the pipeline builds. -/
def askC9 : String → Except String String := fun p =>
  if p = "SC\n\nplaceholder text" then .ok "a concise summary"
  else if p = "AP\n\nEP" then .ok "Quantum computing draft body."
  else if p = "TP" then .ok "Quantum Computing"
  else if p = "GP" then .ok "[qc, physics]"
  else if p = "FWP" then .ok "Quantum-Computing-Explained-Today-Now"
  else .error "unexpected prompt"

/-- The end-to-end scenario environment: one search result, a succeeding
fetch, and the four scenario completions. -/
def envC9 : Env := { baseEnv with
  readFile := readFileC9
  ask := askC9
  fetch := fun u => if u = "https://example.com/qc" then some "placeholder text" else none
  search := fun q =>
    if q = "quantum computing" then
      .ok [⟨"Intro to QC", "https://example.com/qc", "overview"⟩]
    else .ok [] }

/-- C9: the end-to-end scenario exposes a dispatch defect.  Under the
scenario collaborators the researcher PIPELINE produces exactly the
expected filename and document (first conjunct), but the top-level run
FAILS: `BlogAgent.generate_blog_post` (agent.py line 273) invokes
`generator.generate()`, a method `ResearcherPostGenerator` does not define
(its method is named `generate_blog_post`), so the run returns the
`AttributeError` failure and saves nothing, instead of succeeding and
saving the file as the scenario expects. -/
theorem C9_end_to_end_scenario :
    researcher_generate_blog_post envC9 "topic_researcher" "quantum computing" "2026-10-12" =
      ("2026-10-12-Quantum-Computing-Explained-Today-Now.md",
       "title: Quantum Computing\ntags: [qc, physics]\ndate: 2026-10-12\nauthor: AI Agent Researcher\nD\nQuantum computing draft body.") ∧
    (create envC9 cfgResearcher).success = false ∧
    (create envC9 cfgResearcher).message = "Error: " ++ researcherNoGenerate ∧
    (create envC9 cfgResearcher).filesWritten = [] ∧
    (create envC9 cfgResearcher).filepath = none :=
  ⟨rfl, rfl, rfl, rfl, rfl⟩

end Blogi
